import Mathlib

/-!
Verification development for the chat-orchestrator of an electronics
storefront (Django app `assistant` + `shop`).

The embedding models the conversational core:

* `ProductSearchService` (src/assistant/services/product_search.py):
  `search`, `_validate_products`, `search_with_fallback`, `get_by_sku`,
  `filter_by_price`, `filter_in_stock`, `get_components_for_build`.
* `GPTService` (src/assistant/services/gpt_service.py): the parts of
  `select_best_products` and `select_pc_components` that run locally
  (JSON-shape validation, SKU filtering, deterministic fallbacks).  The
  language-model collaborator itself is an external service; its reply is an
  oracle input (`GptRank`, the raw SKU map for builds).
* `chat_assistant` (src/assistant/views.py): the manager short-circuit, the
  forced-SKU regex short-circuit, intent dispatch, the PC-build branch with
  missing-category fallback, SKU re-validation and the infeasible path.

External effects are modelled as explicit inputs:

* the catalog HTTP API is a function `Catalog : SearchCall → ApiResponse`
  mapping the parameters the service sends (after its query normalisation,
  which rewrites only Cyrillic brand words and is absorbed into the oracle)
  to the JSON body or a failure mode;
* the replies of the language-model collaborator are oracle values carried in
  `Oracles` (classification result, ranking reply, build SKU map).

Prices are modelled as exact rationals and stock counts as integers; the
loosely-typed JSON fields of catalog records are modelled by `RawProduct`,
where the outer `Option` is field presence/truthiness and the inner `Option`
is coercibility of a numeric field (`float(...)`/`int(...)` succeeding).
-/

/-- A validated catalog product, as produced by
`ProductSearchService._validate_products`: every field already coerced. -/
structure Product where
  sku : String
  name : String
  category : String
  brand : String
  credit : ℚ
  bonus : ℚ
  stock : ℤ
  warranty : String
deriving DecidableEq, Repr

/-- A raw catalog record as returned by the external API (loosely typed
JSON).  For the string fields the `Option` is the Python truthiness of
`p.get(...)` (with the `str(...)` image as payload); for numeric fields the
outer `Option` is presence (`p.get(f, 0)` defaulting) and the inner `Option`
is whether `float(...)`/`int(...)` coercion succeeds. -/
structure RawProduct where
  sku : Option String
  name : Option String
  category : Option String
  brand : Option String
  credit : Option (Option ℚ)
  bonus : Option (Option ℚ)
  stock : Option (Option ℤ)
  warranty : Option String
deriving DecidableEq, Repr

/-- Python truthiness of an optional string field (`not p.get(...)`). -/
def truthyStr : Option String → Bool
  | none => false
  | some s => s != ""

/-- One iteration of the `_validate_products` loop: records lacking a truthy
`sku` or `name` are dropped (`continue`); numeric fields default to `0` when
absent (`p.get(f, 0)`); a present numeric field whose coercion raises
`ValueError`/`TypeError` makes the whole record skipped (the
`except ... continue`). -/
def validateProduct (r : RawProduct) : Option Product :=
  if truthyStr r.sku && truthyStr r.name then
    match r.credit.getD (some 0), r.bonus.getD (some 0), r.stock.getD (some 0) with
    | some c, some b, some st =>
      some { sku := r.sku.getD "", name := r.name.getD "",
             category := r.category.getD "", brand := r.brand.getD "",
             credit := c, bonus := b, stock := st,
             warranty := r.warranty.getD "" }
    | _, _, _ => none
  else none

/-- `ProductSearchService._validate_products`. -/
def validateProducts (rs : List RawProduct) : List Product :=
  rs.filterMap validateProduct

/-- The parameters of one catalog query exactly as `search` issues them
(query after normalisation, category, limit, price window). -/
structure SearchCall where
  q : String
  category : String
  limit : Nat
  minCredit : Option ℚ
  maxCredit : Option ℚ
deriving DecidableEq, Repr

/-- The behaviour of the catalog API on one request: a JSON body, or one of the
failure modes `requests` can raise. -/
inductive ApiResponse
  | ok (body : List RawProduct)
  | timeout
  | connectionError
  | httpError
  | unexpectedError
deriving DecidableEq, Repr

/-- The external catalog service, as a response for every possible call. -/
def Catalog : Type := SearchCall → ApiResponse

/-- Failure modes of the `try` body of `ProductSearchService.search`. -/
inductive SearchFailure
  | timeout
  | requestError
  | unexpected
deriving DecidableEq, Repr

/-- The `try` body of `ProductSearchService.search`: issue the request,
raise on timeout / request error / unexpected error, otherwise validate the
returned records. -/
def searchAttempt (resp : ApiResponse) : Except SearchFailure (List Product) :=
  match resp with
  | .ok body => .ok (validateProducts body)
  | .timeout => .error .timeout
  | .connectionError => .error .requestError
  | .httpError => .error .requestError
  | .unexpectedError => .error .unexpected

/-- `ProductSearchService.search`: the `except` clauses catch every failure
of the body and return the empty list. -/
def search (cat : Catalog) (q category : String) (limit : Nat)
    (minCredit maxCredit : Option ℚ) : List Product :=
  match searchAttempt (cat ⟨q, category, limit, minCredit, maxCredit⟩) with
  | .ok ps => ps
  | .error _ => []

/-- `ProductSearchService.filter_in_stock`. -/
def filter_in_stock (ps : List Product) : List Product :=
  ps.filter (fun p => 0 < p.stock)

/-- `ProductSearchService.filter_by_price` (`max_price` already numeric in
the validated model, so the coercion-failure branch cannot trigger; the
`if not max_price` falsiness check remains). -/
def filter_by_price (ps : List Product) (maxPrice : ℚ) : List Product :=
  if ps = [] then []
  else if maxPrice = 0 then ps
  else ps.filter (fun p => p.credit ≤ maxPrice)

/-- Python `str.strip()`. -/
def pyStrip (s : String) : String :=
  ⟨((s.data.dropWhile Char.isWhitespace).reverse.dropWhile Char.isWhitespace).reverse⟩

/-- Helper for Python `str.split()` (split on whitespace runs, no empty
pieces), accumulating the current word reversed. -/
def splitWsAux : List Char → List Char → List (List Char)
  | [], acc => if acc = [] then [] else [acc.reverse]
  | c :: cs, acc =>
    if c.isWhitespace then
      if acc = [] then splitWsAux cs [] else acc.reverse :: splitWsAux cs []
    else splitWsAux cs (c :: acc)

/-- Python `query.split()`. -/
def pySplit (s : String) : List String :=
  (splitWsAux s.data []).map fun l => ⟨l⟩

/-- Strategy 4 of `search_with_fallback`: walk the words of the query in
order, skip words shorter than 3 characters, return the first non-empty
per-word search result (issued with the original category and no price
filter). -/
def tryWords (cat : Catalog) (category : String) : List String → List Product
  | [] => []
  | w :: ws =>
    if 3 ≤ w.length then
      if search cat w category 200 none none ≠ [] then
        search cat w category 200 none none
      else tryWords cat category ws
    else tryWords cat category ws

/-- Python truthiness of the optional numeric budget. -/
def budgetTruthy : Option ℚ → Bool
  | none => false
  | some b => b != 0

/-- `ProductSearchService.search_with_fallback`: strategies in order —
(1) query+category, (2) category only (if category truthy), (3) query only
(if query truthy), (4) per-word search (only if the query splits into more
than one word); strategies 1–3 carry the budget as `max_credit`, strategy 4
carries none. -/
def search_with_fallback (cat : Catalog) (query category : String)
    (budget : Option ℚ) : List Product :=
  if search cat query category 200 none budget ≠ [] then
    search cat query category 200 none budget
  else if category ≠ "" ∧ search cat "" category 200 none budget ≠ [] then
    search cat "" category 200 none budget
  else if query ≠ "" ∧ search cat query "" 200 none budget ≠ [] then
    search cat query "" 200 none budget
  else if query ≠ "" ∧ 1 < (pySplit query).length then
    tryWords cat category (pySplit query)
  else []

/-- `ProductSearchService.get_by_sku`: empty SKU refused; otherwise search
the stripped SKU string (limit 10) and return the first record whose `sku`
matches exactly.  The surrounding `try/except` cannot fire in the model
because `search` is already total. -/
def get_by_sku (cat : Catalog) (sku : String) : Option Product :=
  if sku = "" then none
  else (search cat (pyStrip sku) "" 10 none none).find? (fun p => p.sku = pyStrip sku)

/-- The reply of the ranking collaborator in `GPTService.select_best_products`:
the API call raises, the content fails `json.loads`/`isinstance(list)`,
or a parsed list of SKU strings. -/
inductive GptRank
  | raises
  | malformed
  | skus (l : List String)
deriving DecidableEq, Repr

/-- The `products_by_sku` dict of `select_best_products`: built by iterating
the input, so later records with the same SKU overwrite earlier ones. -/
def lookupBySku (ps : List Product) (sku : String) : Option Product :=
  ps.reverse.find? (fun p => p.sku = sku)

/-- `GPTService.select_best_products`: empty input returns empty; an emitted
SKU absent from the input is discarded; when no emitted SKU is usable
(collaborator raised, reply malformed, or all SKUs invalid) the first five
input products are returned. -/
def select_best_products (ps : List Product) (g : GptRank) : List Product :=
  if ps = [] then []
  else
    match g with
    | .raises => ps.take 5
    | .malformed => ps.take 5
    | .skus l =>
      if l.filterMap (lookupBySku ps) = [] then ps.take 5
      else l.filterMap (lookupBySku ps)

/-- The six base build categories, exactly the list duplicated in
`chat_assistant` and `get_components_for_build`. -/
def baseCategories : List String :=
  ["процессоры", "видеокарты", "материнские платы",
   "корпуса", "блоки питания", "твердотельные диски (ssd)"]

/-- The peripheral categories appended when `include_peripherals`. -/
def peripheralCategories : List String := ["мониторы", "мыши", "клавиатуры"]

/-- The required category list of a build request. -/
def requiredCategories (ip : Bool) : List String :=
  baseCategories ++ (if ip then peripheralCategories else [])

/-- The `budget_allocation` tables of `get_components_for_build`
(`.get(category, 0.10)` default). -/
def buildAllocation (ip : Bool) (c : String) : ℚ :=
  if ip then
    if c = "процессоры" then 0.18
    else if c = "видеокарты" then 0.25
    else if c = "материнские платы" then 0.10
    else if c = "твердотельные диски (ssd)" then 0.07
    else if c = "блоки питания" then 0.07
    else if c = "корпуса" then 0.03
    else if c = "мониторы" then 0.20
    else if c = "мыши" then 0.05
    else if c = "клавиатуры" then 0.05
    else 0.10
  else
    if c = "процессоры" then 0.25
    else if c = "видеокарты" then 0.35
    else if c = "материнские платы" then 0.15
    else if c = "твердотельные диски (ssd)" then 0.10
    else if c = "блоки питания" then 0.10
    else if c = "корпуса" then 0.05
    else 0.10

/-- `tier_ranges[...]["base"]` with the `.get(tier, mid)` default. -/
def tierBase (tier : String) : ℚ × ℚ :=
  if tier = "budget" then (5000, 80000)
  else if tier = "high" then (50000, 500000)
  else (20000, 200000)

/-- `tier_ranges[...]["gpu"]` with the `.get(tier, mid)` default. -/
def tierGpu (tier : String) : ℚ × ℚ :=
  if tier = "budget" then (30000, 150000)
  else if tier = "high" then (300000, 1500000)
  else (100000, 400000)

/-- The tier-keyed price band of a category when no budget is given. -/
def tierRange (tier c : String) : ℚ × ℚ :=
  if c = "видеокарты" then tierGpu tier
  else if c = "корпуса" ∨ c = "блоки питания" then (5000, 150000)
  else if c = "мыши" ∨ c = "клавиатуры" then (3000, 80000)
  else if c = "мониторы" then (40000, 400000)
  else tierBase tier

/-- The price window of one category: budget share × widening factors when a
positive numeric budget is given, tier bands otherwise. -/
def categoryPriceRange (budget : Option ℚ) (tier c : String) (ip : Bool) : ℚ × ℚ :=
  match budget with
  | some b =>
    if 0 < b then (b * buildAllocation ip c * 0.4, b * buildAllocation ip c * 2.0)
    else tierRange tier c
  | none => tierRange tier c

/-- The three-stage relaxation for one category in
`get_components_for_build`: price window (limit 40), widened window ×0.3/×2.5
(limit 50), then no price filter (limit 50); each stage stock-filtered. -/
def fetchCategory (cat : Catalog) (budget : Option ℚ) (tier c : String)
    (ip : Bool) : List Product :=
  if filter_in_stock (search cat "" c 40
      (some (categoryPriceRange budget tier c ip).1)
      (some (categoryPriceRange budget tier c ip).2)) ≠ [] then
    filter_in_stock (search cat "" c 40
      (some (categoryPriceRange budget tier c ip).1)
      (some (categoryPriceRange budget tier c ip).2))
  else if filter_in_stock (search cat "" c 50
      (some ((categoryPriceRange budget tier c ip).1 * 0.3))
      (some ((categoryPriceRange budget tier c ip).2 * 2.5))) ≠ [] then
    filter_in_stock (search cat "" c 50
      (some ((categoryPriceRange budget tier c ip).1 * 0.3))
      (some ((categoryPriceRange budget tier c ip).2 * 2.5)))
  else filter_in_stock (search cat "" c 50 none none)

/-- `ProductSearchService.get_components_for_build`: one association-list
entry per required category that still has in-stock candidates after the
relaxation; empty categories get no entry. -/
def get_components_for_build (cat : Catalog) (budget : Option ℚ)
    (tier : String) (ip : Bool) : List (String × List Product) :=
  (requiredCategories ip).filterMap fun c =>
    if fetchCategory cat budget tier c ip = [] then none
    else some (c, fetchCategory cat budget tier c ip)

/-- Dictionary lookup in the category → products map. -/
def lookupPool (pools : List (String × List Product)) (c : String) :
    Option (List Product) :=
  (pools.find? (fun cp => cp.1 = c)).map Prod.snd

/-- `missing_components` in the `pc_build` branch of `chat_assistant`:
required categories absent from the map or mapped to an empty list. -/
def missingCategories (pools : List (String × List Product)) (ip : Bool) :
    List String :=
  (requiredCategories ip).filter (fun c => ((lookupPool pools c).getD []).isEmpty)

/-- The locally-run validation of `GPTService.select_pc_components`: `none`
models every failure of the collaborator call or of JSON parsing (the
function then returns `{}`); a parsed SKU map is returned only when every
required category is among its keys.  `maxBudget` reaches only the prompt
text and the prompt-side sort, never the validation. -/
def select_pc_components (ip : Bool) (maxBudget : Option ℚ)
    (raw : Option (List (String × String))) : List (String × String) :=
  match raw with
  | none => []
  | some m =>
    if (requiredCategories ip).all (fun c => m.any (fun p => p.1 = c)) then m
    else []

/-- The terminal outcomes of the `pc_build` branch of `chat_assistant`. -/
inductive BuildOutcome
  | missingFallback (missing : List String) (fallbackCategory : String)
      (products : List Product)
  | missingNoProducts (missing : List String) (fallbackCategory : String)
  | completeBuild (details : List (String × Product))
  | infeasible
deriving DecidableEq, Repr

/-- The structured `products` payload each build outcome returns. -/
def outcomeProducts : BuildOutcome → List Product
  | .missingFallback _ _ ps => ps
  | .missingNoProducts _ _ => []
  | .completeBuild d => d.map Prod.snd
  | .infeasible => []

/-- `total_price` of a successful build (sum of the re-fetched `credit`
prices, views.py line 406). -/
def buildTotal (d : List (String × Product)) : ℚ :=
  (d.map fun cp => cp.2.credit).sum

/-- The `pc_build` branch of `chat_assistant` after the candidate pools are
fetched: missing-category fallback (category search without stock or price
filter, ranked, first five), or collaborator selection, SKU-by-SKU
re-fetch, and the complete/infeasible decision by counting. -/
def pcBuildDispatch (cat : Catalog) (gsel : Option (List (String × String)))
    (grank : GptRank) (pools : List (String × List Product)) (ip : Bool)
    (budget : Option ℚ) : BuildOutcome :=
  match missingCategories pools ip with
  | fb :: rest =>
    if search cat "" fb 50 none none = [] then
      .missingNoProducts (fb :: rest) fb
    else
      .missingFallback (fb :: rest) fb
        ((select_best_products (search cat "" fb 50 none none) grank).take 5)
  | [] =>
    if (if (select_pc_components ip budget gsel).length = (requiredCategories ip).length
        then (select_pc_components ip budget gsel).filterMap
          (fun cs => (get_by_sku cat cs.2).map (fun p => (cs.1, p)))
        else []).length = (requiredCategories ip).length then
      .completeBuild
        ((select_pc_components ip budget gsel).filterMap
          (fun cs => (get_by_sku cat cs.2).map (fun p => (cs.1, p))))
    else .infeasible

/-- In the `product_search` branch: the initial hit list — direct SKU lookup
when the regex short-circuit fired, the fallback search otherwise. -/
def initialHits (cat : Catalog) (forced : Option String)
    (query category : String) (budget : Option ℚ) : List Product :=
  match forced with
  | some sku => match get_by_sku cat sku with | some p => [p] | none => []
  | none => search_with_fallback cat query category budget

/-- In the `product_search` branch: the budget filter, applied only when the
budget is truthy, hits are non-empty, and no forced SKU fired. -/
def budgetFiltered (cat : Catalog) (forced : Option String)
    (query category : String) (budget : Option ℚ) : List Product :=
  if budgetTruthy budget ∧ initialHits cat forced query category budget ≠ [] ∧
      forced = none then
    filter_by_price (initialHits cat forced query category budget) (budget.getD 0)
  else initialHits cat forced query category budget

/-- The `product_search` branch of `chat_assistant`: initial hits, budget
filter, stock filter, then GPT ranking with the first five of the selection
returned (empty stock-filtered list short-circuits to no products). -/
def productSearchDispatch (cat : Catalog) (g : GptRank) (forced : Option String)
    (query category : String) (budget : Option ℚ) : List Product :=
  if filter_in_stock (budgetFiltered cat forced query category budget) = [] then []
  else
    (select_best_products
      (filter_in_stock (budgetFiltered cat forced query category budget)) g).take 5

/-- The separator class of the forced-SKU regex, `[:\s]`. -/
def isSepChar (c : Char) : Bool := c = ':' || c.isWhitespace

/-- One anchored attempt of `re.search` of the pattern `sku[:\s]*(\d+)` at the head
of the character list: literal `sku`, a greedy run of separators, then at
least one digit; the captured group is the maximal digit run.  (Backtracking
into the separator run can never help: a separator is not a digit.) -/
def skuMatchAt : List Char → Option (List Char)
  | a :: b :: c :: t =>
    if a = 's' ∧ b = 'k' ∧ c = 'u' then
      if (t.dropWhile isSepChar).takeWhile Char.isDigit = [] then none
      else some ((t.dropWhile isSepChar).takeWhile Char.isDigit)
    else none
  | _ => none

/-- `re.search` semantics: the leftmost position whose anchored attempt
succeeds. -/
def findSkuAux : List Char → Option (List Char)
  | [] => none
  | c :: cs =>
    match skuMatchAt (c :: cs) with
    | some ds => some ds
    | none => findSkuAux cs

/-- The forced-SKU detection of `chat_assistant`:
`re.search` of `sku[:\s]*(\d+)` over `user_message.lower()`, returning group 1. -/
def findSkuMatch (s : String) : Option String :=
  (findSkuAux (s.data.map Char.toLower)).map fun l => ⟨l⟩

/-- Session lifecycle states (`ChatSession.status`). -/
inductive SessionStatus
  | active
  | pendingManager
  | withManager
  | closed
deriving DecidableEq, Repr

/-- The fields `chat_assistant` reads off the JSON reply of the classifier, with
the `.get(..., default)` defaults already applied. -/
structure IntentAnalysis where
  intent : String
  category : String
  searchQuery : String
  budget : Option ℚ
  requirements : String
  buildTier : String
  includePeripherals : Bool
  isDetailedQuery : Bool
deriving DecidableEq, Repr

/-- The synthetic analysis substituted when the forced-SKU short-circuit
fires (views.py lines 204–211). -/
def forcedAnalysis (sku : String) : IntentAnalysis :=
  { intent := "product_search", category := "", searchQuery := sku,
    budget := none, requirements := "детальный просмотр/заказ по SKU",
    buildTier := "mid", includePeripherals := false, isDetailedQuery := false }

/-- The external collaborators of one request: the catalog service, the
reply of the classifier, the ranking reply, and the build-selection reply. -/
structure Oracles where
  catalog : Catalog
  analyze : IntentAnalysis
  rank : GptRank
  buildSelect : Option (List (String × String))

/-- What one `chat_assistant` request does: which collaborators ran, how
many `ChatMessage` rows of each role were persisted, and the reply payload. -/
structure ChatResult where
  calledClassifier : Bool
  calledSearch : Bool
  calledAssembler : Bool
  userMessages : Nat
  botMessages : Nat
  intent : String
  searchQuery : String
  products : List Product
  withManager : Bool
deriving DecidableEq, Repr

/-- Input-validation failures of `chat_assistant` (HTTP 400 paths). -/
inductive ChatError
  | emptyMessage
deriving DecidableEq, Repr

/-- The result record of the `with_manager` short-circuit: the customer
message is persisted and nothing else happens. -/
def managerResult : ChatResult :=
  { calledClassifier := false, calledSearch := false, calledAssembler := false,
    userMessages := 1, botMessages := 0, intent := "with_manager",
    searchQuery := "", products := [], withManager := true }

/-- Products and service-usage flags of the intent dispatch (ШАГ 2). -/
def intentDispatch (o : Oracles) (analysis : IntentAnalysis)
    (forced : Option String) : List Product × Bool × Bool :=
  if analysis.intent = "product_search" then
    (productSearchDispatch o.catalog o.rank forced
      (pyStrip analysis.searchQuery) analysis.category analysis.budget,
     true, false)
  else if analysis.intent = "pc_build" then
    (outcomeProducts (pcBuildDispatch o.catalog o.buildSelect o.rank
        (get_components_for_build o.catalog analysis.budget
          ⟨analysis.buildTier.data.map Char.toLower⟩ analysis.includePeripherals)
        analysis.includePeripherals analysis.budget),
     true, true)
  else ([], false, false)

/-- The `chat_assistant` request handler (file uploads out of modelled
scope): empty stripped message is a 400; a `with_manager` session only
persists the customer message; otherwise forced-SKU detection decides
whether the classifier runs, the intent is dispatched, and exactly one bot
message is persisted. -/
def chat_assistant (status : SessionStatus) (userMessage : String)
    (o : Oracles) : Except ChatError ChatResult :=
  if pyStrip userMessage = "" then .error .emptyMessage
  else if status = .withManager then .ok managerResult
  else
    match findSkuMatch (pyStrip userMessage) with
    | some sku =>
      .ok { calledClassifier := false,
            calledSearch := (intentDispatch o (forcedAnalysis sku) (some sku)).2.1,
            calledAssembler := (intentDispatch o (forcedAnalysis sku) (some sku)).2.2,
            userMessages := 1, botMessages := 1,
            intent := (forcedAnalysis sku).intent,
            searchQuery := (forcedAnalysis sku).searchQuery,
            products := (intentDispatch o (forcedAnalysis sku) (some sku)).1,
            withManager := status == .pendingManager }
    | none =>
      .ok { calledClassifier := true,
            calledSearch := (intentDispatch o o.analyze none).2.1,
            calledAssembler := (intentDispatch o o.analyze none).2.2,
            userMessages := 1, botMessages := 1,
            intent := o.analyze.intent,
            searchQuery := o.analyze.searchQuery,
            products := (intentDispatch o o.analyze none).1,
            withManager := status == .pendingManager }

/-! Helper lemmas about the service building blocks. -/

lemma lookupBySku_mem {ps : List Product} {q : String} {p : Product}
    (h : lookupBySku ps q = some p) : p ∈ ps := by
  have := List.mem_of_find?_eq_some h
  exact List.mem_reverse.mp this

lemma select_best_products_subset (ps : List Product) (g : GptRank) :
    ∀ p ∈ select_best_products ps g, p ∈ ps := by
  intro p hp
  unfold select_best_products at hp
  by_cases hps : ps = []
  · simp [hps] at hp
  · simp only [hps, if_false] at hp
    cases g with
    | raises => exact List.mem_of_mem_take hp
    | malformed => exact List.mem_of_mem_take hp
    | skus l =>
      by_cases hsel : l.filterMap (lookupBySku ps) = []
      · simp only [hsel, if_true] at hp
        exact List.mem_of_mem_take hp
      · simp only [hsel, if_false] at hp
        obtain ⟨s, _, hs⟩ := List.mem_filterMap.mp hp
        exact lookupBySku_mem hs

lemma filter_in_stock_pos {ps : List Product} {p : Product}
    (h : p ∈ filter_in_stock ps) : 0 < p.stock := by
  unfold filter_in_stock at h
  simpa using (List.mem_filter.mp h).2

lemma tryWords_eq_nil {cat : Catalog} {c : String} {ws : List String}
    (h : tryWords cat c ws = []) :
    ∀ w ∈ ws, 3 ≤ w.length → search cat w c 200 none none = [] := by
  induction ws with
  | nil => intro w hw; simp at hw
  | cons w ws ih =>
    intro v hv hvlen
    unfold tryWords at h
    by_cases hlen : 3 ≤ w.length
    · by_cases hs : search cat w c 200 none none = []
      · simp only [hlen, if_true, hs, ne_eq, not_true_eq_false, if_false] at h
        rcases List.mem_cons.mp hv with rfl | hv
        · exact hs
        · exact ih h v hv hvlen
      · simp [hlen, hs] at h
    · simp only [hlen, if_false] at h
      rcases List.mem_cons.mp hv with rfl | hv
      · exact absurd hvlen hlen
      · exact ih h v hv hvlen

lemma tryWords_ne_nil {cat : Catalog} {c : String} {ws : List String}
    (h : tryWords cat c ws ≠ []) :
    ∃ w ∈ ws, 3 ≤ w.length ∧ tryWords cat c ws = search cat w c 200 none none := by
  induction ws with
  | nil => simp [tryWords] at h
  | cons w ws ih =>
    unfold tryWords at h ⊢
    by_cases hlen : 3 ≤ w.length
    · by_cases hs : search cat w c 200 none none ≠ []
      · exact ⟨w, by simp, hlen, by simp [hlen, hs]⟩
      · simp only [hlen, if_true, hs, if_false] at h ⊢
        obtain ⟨v, hv, hvlen, hveq⟩ := ih h
        exact ⟨v, by simp [hv], hvlen, hveq⟩
    · simp only [hlen, if_false] at h ⊢
      obtain ⟨v, hv, hvlen, hveq⟩ := ih h
      exact ⟨v, by simp [hv], hvlen, hveq⟩

lemma filterMap_all_isSome {α β : Type} {f : α → Option β} {l : List α}
    (h : (l.filterMap f).length = l.length) : ∀ a ∈ l, (f a).isSome := by
  induction l with
  | nil => intro a ha; simp at ha
  | cons a l ih =>
    intro b hb
    rw [List.filterMap_cons] at h
    cases hfa : f a with
    | none =>
      rw [hfa] at h
      have hle := List.length_filterMap_le f l
      simp [List.length_cons] at h
      omega
    | some v =>
      rw [hfa] at h
      simp only [List.length_cons, Nat.succ_inj] at h
      rcases List.mem_cons.mp hb with rfl | hb
      · simp [hfa]
      · exact ih h b hb

lemma filterMap_none_length_lt {α β : Type} {f : α → Option β} {l : List α}
    (h : ∃ a ∈ l, f a = none) : (l.filterMap f).length < l.length := by
  induction l with
  | nil => simp at h
  | cons a l ih =>
    rw [List.filterMap_cons]
    obtain ⟨b, hb, hfb⟩ := h
    rcases List.mem_cons.mp hb with rfl | hb
    · rw [hfb]
      have := List.length_filterMap_le f l
      simp only [List.length_cons]
      omega
    · cases hfa : f a with
      | none =>
        have := List.length_filterMap_le f l
        simp only [List.length_cons]
        omega
      | some v =>
        have := ih ⟨b, hb, hfb⟩
        simp only [List.length_cons]
        omega

lemma filterMap_pair_fst {γ α β : Type} {g : α → Option β} {l : List (γ × α)}
    (h : ∀ a ∈ l, (g a.2).isSome) :
    (l.filterMap (fun cs => (g cs.2).map (fun p => (cs.1, p)))).map Prod.fst
      = l.map Prod.fst := by
  induction l with
  | nil => rfl
  | cons a l ih =>
    have ha : (g a.2).isSome := h a (by simp)
    obtain ⟨v, hv⟩ := Option.isSome_iff_exists.mp ha
    rw [List.filterMap_cons]
    simp only [hv, Option.map_some', List.map_cons]
    rw [ih (fun b hb => h b (by simp [hb]))]

/-! C8 — the catalog search never raises. -/

/-- C8: `ProductSearchService.search` never raises: whenever the request
body fails (timeout, request error, anything unexpected) the `except`
clauses return the empty list, and on a successful response the validated
records are returned. -/
theorem C8_search_never_raises (cat : Catalog) (q c : String) (lim : Nat)
    (mn mx : Option ℚ) :
    (∀ e, searchAttempt (cat ⟨q, c, lim, mn, mx⟩) = .error e →
        search cat q c lim mn mx = []) ∧
    (∀ body, cat ⟨q, c, lim, mn, mx⟩ = .ok body →
        search cat q c lim mn mx = validateProducts body) := by
  constructor
  · intro e he
    unfold search
    rw [he]
  · intro body hb
    unfold search searchAttempt
    rw [hb]

/-- C8 witness: a catalog that times out on every request yields the empty
list on a concrete call. -/
theorem C8_search_never_raises_witness :
    searchAttempt ((fun _ => ApiResponse.timeout : Catalog)
        ⟨"RTX", "", 200, none, none⟩) = .error .timeout ∧
    search (fun _ => ApiResponse.timeout) "RTX" "" 200 none none = [] :=
  ⟨rfl, (C8_search_never_raises (fun _ => ApiResponse.timeout) "RTX" "" 200
      none none).1 .timeout rfl⟩

/-! C6 — the selector never empties a non-empty input. -/

/-- C6: `GPTService.select_best_products` returns the empty list exactly
when its input is empty; emitted SKUs found in the input are returned (in
collaborator order, via the SKU index), every returned product comes from
the input, and when the collaborator raises, replies malformed output, or
emits only unknown SKUs, the first five input products are returned. -/
theorem C6_selector_total (ps : List Product) (g : GptRank) :
    (select_best_products ps g = [] ↔ ps = []) ∧
    (∀ l, g = .skus l → l.filterMap (lookupBySku ps) ≠ [] →
        select_best_products ps g = l.filterMap (lookupBySku ps)) ∧
    (∀ p ∈ select_best_products ps g, p ∈ ps) ∧
    ((g = .raises ∨ g = .malformed ∨
        (∃ l, g = .skus l ∧ l.filterMap (lookupBySku ps) = [])) →
      select_best_products ps g = ps.take 5) := by
  refine ⟨?_, ?_, select_best_products_subset ps g, ?_⟩
  · constructor
    · intro h
      by_contra hps
      unfold select_best_products at h
      simp only [hps, if_false] at h
      obtain ⟨a, as, rfl⟩ := List.exists_cons_of_ne_nil hps
      cases g with
      | raises => simp [List.take] at h
      | malformed => simp [List.take] at h
      | skus l =>
        by_cases hsel : l.filterMap (lookupBySku (a :: as)) = []
        · simp [hsel, List.take] at h
        · simp only [hsel, if_false] at h
    · intro h; simp [h, select_best_products]
  · rintro l rfl hsel
    have hps : ps ≠ [] := by
      intro hps
      subst hps
      apply hsel
      apply List.eq_nil_iff_forall_not_mem.mpr
      intro p hp
      obtain ⟨s, _, hs⟩ := List.mem_filterMap.mp hp
      simp [lookupBySku] at hs
    simp [select_best_products, hps, hsel]
  · intro h
    by_cases hps : ps = []
    · simp [select_best_products, hps]
    · rcases h with rfl | rfl | ⟨l, rfl, hsel⟩
      · simp [select_best_products, hps]
      · simp [select_best_products, hps]
      · simp [select_best_products, hps, hsel]

/-! Concrete catalog records and oracle behaviours used as witnesses and
counterexamples. -/

/-- A well-formed raw record of an in-stock graphics card. -/
def rawGpu : RawProduct :=
  { sku := some "47442", name := some "RTX 4090", category := some "видеокарты",
    brand := some "MSI", credit := some (some 999999), bonus := some (some 900000),
    stock := some (some 3), warranty := some "12 мес" }

/-- The validated image of `rawGpu`. -/
def gpuProduct : Product :=
  { sku := "47442", name := "RTX 4090", category := "видеокарты", brand := "MSI",
    credit := 999999, bonus := 900000, stock := 3, warranty := "12 мес" }

/-- A catalog that answers only the uncapped query `Ryzen` (any capped
request sees an empty body). -/
def catRyzen : Catalog := fun sc =>
  if sc.maxCredit = none ∧ sc.q = "Ryzen" then .ok [rawGpu] else .ok []

/-- A catalog that answers only the uncapped query `RTX`. -/
def catRtx : Catalog := fun sc =>
  if sc.maxCredit = none ∧ sc.q = "RTX" then .ok [rawGpu] else .ok []

/-- A raw CPU record that is out of stock. -/
def rawNoStock : RawProduct :=
  { sku := some "100", name := some "CPU X", category := some "процессоры",
    brand := some "", credit := some (some 100), bonus := some (some 0),
    stock := some (some 0), warranty := some "" }

/-- A catalog holding only the out-of-stock CPU, visible only to unfiltered
category queries for `процессоры`. -/
def catProc : Catalog := fun sc =>
  if sc.q = "" ∧ sc.category = "процессоры" ∧ sc.minCredit = none ∧ sc.maxCredit = none
  then .ok [rawNoStock] else .ok []

/-- A raw in-stock record returned by the everything-matches catalog. -/
def rawStocked : RawProduct :=
  { sku := some "7", name := some "Mouse", category := some "мыши",
    brand := some "Logitech", credit := some (some 9990), bonus := some (some 9000),
    stock := some (some 2), warranty := some "6 мес" }

/-- The validated image of `rawStocked`. -/
def stockedProduct : Product :=
  { sku := "7", name := "Mouse", category := "мыши", brand := "Logitech",
    credit := 9990, bonus := 9000, stock := 2, warranty := "6 мес" }

/-- A catalog that returns `rawStocked` for every request. -/
def catStocked : Catalog := fun _ => .ok [rawStocked]

/-- A raw record with price 100000, reachable by SKU queries for `z`. -/
def rawZ : RawProduct :=
  { sku := some "z", name := some "Z", category := some "", brand := some "",
    credit := some (some 100000), bonus := some (some 0),
    stock := some (some 3), warranty := some "" }

/-- A catalog that resolves the SKU `z` (and nothing else). -/
def catZ : Catalog := fun sc => if sc.q = "z" then .ok [rawZ] else .ok []

/-- An arbitrary in-stock pool entry for build category availability. -/
def poolProduct : Product :=
  { sku := "p", name := "P", category := "", brand := "", credit := 50,
    bonus := 0, stock := 1, warranty := "" }

/-- Candidate pools where every base category has one in-stock candidate. -/
def poolsBase : List (String × List Product) :=
  baseCategories.map fun c => (c, [poolProduct])

/-- A collaborator SKU map choosing `z` for every base category. -/
def gselZ : List (String × String) := baseCategories.map fun c => (c, "z")

/-- A no-op oracle bundle (catalog empty, classifier returns a general
conversation intent, ranking malformed, no build selection). -/
def oEmpty : Oracles :=
  { catalog := fun _ => .ok [],
    analyze := { intent := "general", category := "", searchQuery := "",
                 budget := none, requirements := "", buildTier := "mid",
                 includePeripherals := false, isDetailedQuery := false },
    rank := .malformed, buildSelect := none }

/-! C7 — manager-mode silence. -/

/-- C7: when the session status is `with_manager`, a (non-empty) message
only persists one customer `ChatMessage` and no bot message, and neither the
classifier nor the search service nor the build assembler is invoked. -/
theorem C7_manager_mode_silence (st : SessionStatus) (msg : String) (o : Oracles)
    (hmsg : pyStrip msg ≠ "") (hst : st = .withManager) :
    chat_assistant st msg o =
      .ok { calledClassifier := false, calledSearch := false,
            calledAssembler := false, userMessages := 1, botMessages := 0,
            intent := "with_manager", searchQuery := "", products := [],
            withManager := true } := by
  subst hst
  simp [chat_assistant, hmsg, managerResult]

/-- C7 witness: a concrete message in a `with_manager` session. -/
theorem C7_manager_mode_silence_witness :
    pyStrip "Здравствуйте, мне нужен RTX 4090" ≠ "" ∧
    chat_assistant .withManager "Здравствуйте, мне нужен RTX 4090" oEmpty =
      .ok { calledClassifier := false, calledSearch := false,
            calledAssembler := false, userMessages := 1, botMessages := 0,
            intent := "with_manager", searchQuery := "", products := [],
            withManager := true } :=
  ⟨by decide, C7_manager_mode_silence .withManager _ oEmpty (by decide) rfl⟩

/-! C5 — fallback search strategy order. -/

/-- C5 counterexample: the claim says the empty list is returned only when
every applicable strategy (including the per-word searches over tokens of
length at least 3) yields empty; but for the one-word query `Ryzen` with a
budget cap, strategies 1 and 3 see an empty capped body, strategy 4 is
skipped entirely (the code requires at least two words), and the uncapped
per-word search for `Ryzen` would have succeeded. -/
theorem C5_cex_single_word_skipped :
    ¬ (∀ (cat : Catalog) (q c : String) (b : Option ℚ),
        search_with_fallback cat q c b = [] →
        ∀ w ∈ pySplit q, 3 ≤ w.length → search cat w c 200 none none = []) := by
  intro hclaim
  have h := hclaim catRyzen "Ryzen" "" (some 100) (by decide) "Ryzen"
    (by decide) (by decide)
  exact absurd h (by decide)

/-- C5 (amended): strategies run strictly in order — (1) query+category,
(2) category only when the category is non-empty, (3) query only when the
query is non-empty, (4) per-word search — and the first non-empty strategy
result is returned; but strategy 4 runs only when the query splits into at
least two whitespace tokens, so the empty list guarantees all strategy 1–3
results empty and, only for multi-word queries, all per-word searches of
words of length at least 3 empty. -/
theorem C5_amended_fallback_order (cat : Catalog) (q c : String) (b : Option ℚ) :
    (search cat q c 200 none b ≠ [] →
      search_with_fallback cat q c b = search cat q c 200 none b) ∧
    (search cat q c 200 none b = [] → c ≠ "" →
      search cat "" c 200 none b ≠ [] →
      search_with_fallback cat q c b = search cat "" c 200 none b) ∧
    (search cat q c 200 none b = [] →
      (c = "" ∨ search cat "" c 200 none b = []) → q ≠ "" →
      search cat q "" 200 none b ≠ [] →
      search_with_fallback cat q c b = search cat q "" 200 none b) ∧
    (search cat q c 200 none b = [] →
      (c = "" ∨ search cat "" c 200 none b = []) →
      (q = "" ∨ search cat q "" 200 none b = []) →
      search_with_fallback cat q c b =
        (if q ≠ "" ∧ 1 < (pySplit q).length then tryWords cat c (pySplit q) else [])) ∧
    (search_with_fallback cat q c b = [] →
      search cat q c 200 none b = [] ∧
      (c ≠ "" → search cat "" c 200 none b = []) ∧
      (q ≠ "" → search cat q "" 200 none b = []) ∧
      (1 < (pySplit q).length →
        ∀ w ∈ pySplit q, 3 ≤ w.length → search cat w c 200 none none = [])) := by
  refine ⟨?_, ?_, ?_, ?_, ?_⟩
  · intro h1
    simp [search_with_fallback, h1]
  · intro h1 hc h2
    simp [search_with_fallback, h1, hc, h2]
  · intro h1 hor hq h3
    rcases hor with rfl | h2
    · exact absurd h1 h3
    · simp [search_with_fallback, h1, h2, hq, h3]
  · intro h1 hor2 hor3
    have hc2 : ¬ (c ≠ "" ∧ search cat "" c 200 none b ≠ []) := by
      rcases hor2 with rfl | h2
      · simp
      · simp [h2]
    have hc3 : ¬ (q ≠ "" ∧ search cat q "" 200 none b ≠ []) := by
      rcases hor3 with rfl | h3
      · simp
      · simp [h3]
    unfold search_with_fallback
    rw [if_neg (by simp [h1]), if_neg hc2, if_neg hc3]
  · intro h
    unfold search_with_fallback at h
    by_cases h1 : search cat q c 200 none b = []
    · rw [if_neg (by simp [h1])] at h
      by_cases h2 : c ≠ "" ∧ search cat "" c 200 none b ≠ []
      · rw [if_pos h2] at h
        exact absurd h h2.2
      · rw [if_neg h2] at h
        by_cases h3 : q ≠ "" ∧ search cat q "" 200 none b ≠ []
        · rw [if_pos h3] at h
          exact absurd h h3.2
        · rw [if_neg h3] at h
          refine ⟨h1, ?_, ?_, ?_⟩
          · intro hc
            by_cases hs2 : search cat "" c 200 none b = []
            · exact hs2
            · exact absurd ⟨hc, hs2⟩ h2
          · intro hq
            by_cases hs3 : search cat q "" 200 none b = []
            · exact hs3
            · exact absurd ⟨hq, hs3⟩ h3
          · intro hlen w hw hwlen
            have hq : q ≠ "" := by
              intro hq0
              subst hq0
              simp [pySplit, splitWsAux] at hlen
            rw [if_pos ⟨hq, hlen⟩] at h
            exact tryWords_eq_nil h w hw hwlen
    · rw [if_pos h1] at h
      exact absurd h h1

/-- C5 (amended) witness: with a catalog answering only the uncapped query
`Ryzen`, the first strategy succeeds for an uncapped request and its result
is returned unchanged. -/
theorem C5_amended_fallback_order_witness :
    search catRyzen "Ryzen" "" 200 none none ≠ [] ∧
    search_with_fallback catRyzen "Ryzen" "" none =
      search catRyzen "Ryzen" "" 200 none none :=
  ⟨by decide, (C5_amended_fallback_order catRyzen "Ryzen" "" none).1 (by decide)⟩

/-! C10 — strategy 4 carries no price cap. -/

/-- C10: strategies 1–3 of `search_with_fallback` pass the budget as
`max_credit`, but when they all come back empty and the per-word stage
produces the result, that result is a `search` call issued with no price
bound at all — so (second conjunct) a concrete over-budget product is
returned for a multi-word query under a budget of 100. -/
theorem C10_strategy4_uncapped :
    (∀ (cat : Catalog) (q c : String) (b : Option ℚ),
      search cat q c 200 none b = [] →
      (c ≠ "" → search cat "" c 200 none b = []) →
      (q ≠ "" → search cat q "" 200 none b = []) →
      search_with_fallback cat q c b ≠ [] →
      ∃ w ∈ pySplit q, 3 ≤ w.length ∧
        search_with_fallback cat q c b = search cat w c 200 none none) ∧
    (∃ p ∈ search_with_fallback catRtx "RTX 4090" "" (some 100),
      (100 : ℚ) < p.credit) := by
  constructor
  · intro cat q c b h1 h2 h3 hne
    have hc2 : ¬ (c ≠ "" ∧ search cat "" c 200 none b ≠ []) := by
      by_cases hc : c = ""
      · simp [hc]
      · simp [hc, h2 hc]
    have hc3 : ¬ (q ≠ "" ∧ search cat q "" 200 none b ≠ []) := by
      by_cases hq : q = ""
      · simp [hq]
      · simp [hq, h3 hq]
    unfold search_with_fallback at hne ⊢
    rw [if_neg (by simp [h1]), if_neg hc2, if_neg hc3] at hne ⊢
    by_cases hcond : q ≠ "" ∧ 1 < (pySplit q).length
    · rw [if_pos hcond] at hne ⊢
      exact tryWords_ne_nil hne
    · rw [if_neg hcond] at hne
      exact absurd rfl hne
  · decide

/-- C10 witness: the general part applied to the concrete over-budget
scenario — strategies 1–3 are empty there and the returned result is the
uncapped per-word search. -/
theorem C10_strategy4_uncapped_witness :
    search catRtx "RTX 4090" "" 200 none (some 100) = [] ∧
    (∃ w ∈ pySplit "RTX 4090", 3 ≤ w.length ∧
      search_with_fallback catRtx "RTX 4090" "" (some 100) =
        search catRtx w "" 200 none none) :=
  ⟨by decide,
   C10_strategy4_uncapped.1 catRtx "RTX 4090" "" (some 100) (by decide)
     (fun h => absurd rfl h) (by intro; decide) (by decide)⟩

/-! C9 — record validation and coercion. -/

/-- C9 counterexample: the claim says a numeric field that fails coercion
defaults to zero and a record is skipped only over its identity fields; but
a record with a truthy SKU and name whose `credit` is present and
uncoercible is skipped entirely by `_validate_products`. -/
theorem C9_cex_uncoercible_credit_drops_record :
    ¬ (∀ (r : RawProduct),
        truthyStr r.sku = true → truthyStr r.name = true →
        (validateProduct r).isSome = true) := by
  intro hclaim
  have h := hclaim
    { sku := some "47442", name := some "RTX 4090", category := some "",
      brand := some "", credit := some none, bonus := some (some 0),
      stock := some (some 1), warranty := some "" }
    (by decide) (by decide)
  exact absurd h (by decide)

/-- C9 (amended): every record returned by `_validate_products` has a
non-empty SKU and name; a record is kept exactly when SKU and name are
truthy and every present numeric field coerces; numeric fields default to
zero when absent and keep their coerced value when present — a present
numeric field that fails coercion skips the whole record instead of
defaulting to zero. -/
theorem C9_amended_validation (rs : List RawProduct) :
    (∀ p ∈ validateProducts rs, p.sku ≠ "" ∧ p.name ≠ "") ∧
    (∀ r : RawProduct, (validateProduct r).isSome = true ↔
      (truthyStr r.sku = true ∧ truthyStr r.name = true ∧
        r.credit ≠ some none ∧ r.bonus ≠ some none ∧ r.stock ≠ some none)) ∧
    (∀ (r : RawProduct) (p : Product), validateProduct r = some p →
      (r.credit = none → p.credit = 0) ∧
      (∀ x, r.credit = some (some x) → p.credit = x) ∧
      (r.bonus = none → p.bonus = 0) ∧
      (∀ x, r.bonus = some (some x) → p.bonus = x) ∧
      (r.stock = none → p.stock = 0) ∧
      (∀ x, r.stock = some (some x) → p.stock = x)) := by
  refine ⟨?_, ?_, ?_⟩
  · intro p hp
    obtain ⟨r, _, hr⟩ := List.mem_filterMap.mp hp
    obtain ⟨sku, name, c0, b0, cr, bo, st, wa⟩ := r
    rcases sku with _ | s <;> rcases name with _ | n <;>
      rcases cr with _ | _ | cv <;> rcases bo with _ | _ | bv <;>
      rcases st with _ | _ | sv <;>
      simp_all [validateProduct, truthyStr] <;>
      (obtain ⟨⟨hs, hn⟩, hrec⟩ := hr; subst hrec; exact ⟨hs, hn⟩)
  · intro r
    obtain ⟨sku, name, c0, b0, cr, bo, st, wa⟩ := r
    rcases sku with _ | s <;> rcases name with _ | n <;>
      rcases cr with _ | _ | cv <;> rcases bo with _ | _ | bv <;>
      rcases st with _ | _ | sv <;>
      simp [validateProduct, truthyStr] <;>
      by_cases hs : s = "" <;> by_cases hn : n = "" <;> simp_all
  · intro r p hr
    obtain ⟨sku, name, c0, b0, cr, bo, st, wa⟩ := r
    rcases sku with _ | s <;> rcases name with _ | n <;>
      rcases cr with _ | _ | cv <;> rcases bo with _ | _ | bv <;>
      rcases st with _ | _ | sv <;>
      simp_all [validateProduct, truthyStr] <;>
      (obtain ⟨⟨hs, hn⟩, hrec⟩ := hr; subst hrec; simp)

/-! C3 — stock and price guarantees on returned products. -/

/-- C3 counterexample: the claim says every product handed to the response
layer has positive stock on every dispatch path; but on the missing-category
build fallback the category search is issued without a stock filter, so an
out-of-stock CPU (invisible to the stock-filtered pool fetching, hence the
category is missing) is returned to the user with `stock = 0`. -/
theorem C3_cex_fallback_returns_out_of_stock :
    ∃ p ∈ outcomeProducts
        (pcBuildDispatch catProc none GptRank.malformed
          (get_components_for_build catProc none "mid" false) false none),
      ¬ 0 < p.stock := by decide

/-- C3 (amended): on the ordinary product-search path (forced SKU included)
every product returned by the orchestrator has positive stock — the stock
filter runs on every branch of that path and the selector only reorders its
input; the build-success and missing-category fallback paths do not
guarantee positive stock. -/
theorem C3_amended_search_path_stock (cat : Catalog) (g : GptRank)
    (forced : Option String) (q c : String) (b : Option ℚ) :
    ∀ p ∈ productSearchDispatch cat g forced q c b, 0 < p.stock := by
  intro p hp
  unfold productSearchDispatch at hp
  by_cases h : filter_in_stock (budgetFiltered cat forced q c b) = []
  · rw [if_pos h] at hp
    simp at hp
  · rw [if_neg h] at hp
    exact filter_in_stock_pos
      (select_best_products_subset _ g p (List.mem_of_mem_take hp))

/-- C3 (amended) witness: a concrete search run returning an in-stock
product, whose stock the amended theorem bounds. -/
theorem C3_amended_search_path_stock_witness :
    stockedProduct ∈ productSearchDispatch catStocked .malformed none "Mouse" "" none ∧
    0 < stockedProduct.stock :=
  ⟨by decide,
   C3_amended_search_path_stock catStocked .malformed none "Mouse" "" none
     stockedProduct (by decide)⟩

/-! C4 — the forced-SKU short-circuit. -/

lemma digit_not_sep {c : Char} (h : c.isDigit = true) : isSepChar c = false := by
  by_cases h1 : c = ':'
  · subst h1; exact absurd h (by decide)
  · by_cases h2 : c = ' '
    · subst h2; exact absurd h (by decide)
    · by_cases h3 : c = '\t'
      · subst h3; exact absurd h (by decide)
      · by_cases h4 : c = '\x0d'
        · subst h4; exact absurd h (by decide)
        · by_cases h5 : c = '\n'
          · subst h5; exact absurd h (by decide)
          · simp [isSepChar, Char.isWhitespace, h1, h2, h3, h4, h5]

lemma dropWhile_append_all {p : Char → Bool} {l₁ l₂ : List Char}
    (h : ∀ c ∈ l₁, p c = true) :
    (l₁ ++ l₂).dropWhile p = l₂.dropWhile p := by
  induction l₁ with
  | nil => rfl
  | cons a l ih =>
    rw [List.cons_append, List.dropWhile_cons, if_pos (h a (by simp))]
    exact ih fun c hc => h c (by simp [hc])

lemma takeWhile_append_all {p : Char → Bool} {l₁ l₂ : List Char}
    (h : ∀ c ∈ l₁, p c = true) :
    (l₁ ++ l₂).takeWhile p = l₁ ++ l₂.takeWhile p := by
  induction l₁ with
  | nil => rfl
  | cons a l ih =>
    rw [List.cons_append, List.takeWhile_cons, if_pos (h a (by simp))]
    rw [ih fun c hc => h c (by simp [hc]), List.cons_append]

lemma skuMatchAt_decomp {sep ds post : List Char}
    (hsep : ∀ c ∈ sep, isSepChar c = true) (hds : ds ≠ [])
    (hdig : ∀ c ∈ ds, c.isDigit = true) :
    skuMatchAt ('s' :: 'k' :: 'u' :: (sep ++ (ds ++ post)))
      = some (ds ++ post.takeWhile Char.isDigit) := by
  obtain ⟨d, ds2, rfl⟩ := List.exists_cons_of_ne_nil hds
  have hdrop : ((sep ++ (d :: ds2 ++ post)).dropWhile isSepChar)
      = d :: ds2 ++ post := by
    rw [dropWhile_append_all hsep, List.cons_append, List.dropWhile_cons,
      if_neg (by simp [digit_not_sep (hdig d (by simp))])]
  have htake : ((d :: ds2 ++ post).takeWhile Char.isDigit)
      = d :: ds2 ++ post.takeWhile Char.isDigit := by
    rw [List.cons_append, List.takeWhile_cons, if_pos (hdig d (by simp))]
    rw [takeWhile_append_all fun c hc => hdig c (by simp [hc]), List.cons_append]
  simp only [skuMatchAt]
  rw [hdrop, htake]
  simp

lemma findSkuAux_isSome (pre l : List Char)
    (h : (skuMatchAt l).isSome = true) :
    (findSkuAux (pre ++ l)).isSome = true := by
  induction pre with
  | nil =>
    cases l with
    | nil => exact absurd h (by decide)
    | cons c cs =>
      rw [List.nil_append]
      unfold findSkuAux
      obtain ⟨v, hv⟩ := Option.isSome_iff_exists.mp h
      rw [hv]
      rfl
  | cons a pre ih =>
    rw [List.cons_append]
    unfold findSkuAux
    cases hm : skuMatchAt (a :: (pre ++ l)) with
    | some ds => rfl
    | none => exact ih

/-- C4: (first part) any message whose lowercased text contains the literal
token `sku` followed by a separator run and at least one digit is caught by
the forced-SKU scanner; (second part) whenever the scanner fires on a
session not in manager mode, `chat_assistant` does not invoke the GPT
classifier and processes the request as a `product_search` intent whose
search term is exactly the captured digit run, whatever else the message
says. -/
theorem C4_sku_short_circuit :
    (∀ (s : String) (pre sep ds post : List Char),
        s.data.map Char.toLower = pre ++ ['s', 'k', 'u'] ++ sep ++ ds ++ post →
        (∀ c ∈ sep, isSepChar c = true) → ds ≠ [] →
        (∀ c ∈ ds, c.isDigit = true) →
        ∃ e, findSkuMatch s = some e) ∧
    (∀ (st : SessionStatus) (msg : String) (o : Oracles) (ds : String),
        st ≠ .withManager → pyStrip msg ≠ "" →
        findSkuMatch (pyStrip msg) = some ds →
        chat_assistant st msg o =
          .ok { calledClassifier := false, calledSearch := true,
                calledAssembler := false, userMessages := 1, botMessages := 1,
                intent := "product_search", searchQuery := ds,
                products := productSearchDispatch o.catalog o.rank (some ds)
                    (pyStrip ds) "" none,
                withManager := st == .pendingManager }) := by
  constructor
  · intro s pre sep ds post hdecomp hsep hds hdig
    unfold findSkuMatch
    rw [hdecomp]
    have hassoc : pre ++ ['s', 'k', 'u'] ++ sep ++ ds ++ post
        = pre ++ ('s' :: 'k' :: 'u' :: (sep ++ (ds ++ post))) := by
      simp [List.append_assoc]
    rw [hassoc]
    have hm : (skuMatchAt ('s' :: 'k' :: 'u' :: (sep ++ (ds ++ post)))).isSome = true := by
      rw [skuMatchAt_decomp hsep hds hdig]
      rfl
    obtain ⟨e, he⟩ := Option.isSome_iff_exists.mp (findSkuAux_isSome pre _ hm)
    exact ⟨⟨e⟩, by rw [he]; rfl⟩
  · intro st msg o ds hst hmsg h
    unfold chat_assistant
    rw [if_neg hmsg, if_neg hst, h]
    simp [intentDispatch, forcedAnalysis]

/-- C4 witness: the scanner fires on a concrete mixed-language order message
and the orchestrator answers with a forced `product_search` for `47442`. -/
theorem C4_sku_short_circuit_witness :
    findSkuMatch (pyStrip "Хочу заказать SKU: 47442 срочно") = some "47442" ∧
    chat_assistant .active "Хочу заказать SKU: 47442 срочно" oEmpty =
      .ok { calledClassifier := false, calledSearch := true,
            calledAssembler := false, userMessages := 1, botMessages := 1,
            intent := "product_search", searchQuery := "47442",
            products := productSearchDispatch oEmpty.catalog oEmpty.rank
                (some "47442") (pyStrip "47442") "" none,
            withManager := SessionStatus.active == SessionStatus.pendingManager } :=
  ⟨by decide,
   C4_sku_short_circuit.2 .active "Хочу заказать SKU: 47442 срочно" oEmpty
     "47442" (by decide) (by decide) (by decide)⟩

/-! C1 — build completeness invariant. -/

/-- The validated image of `rawZ`. -/
def zProduct : Product :=
  { sku := "z", name := "Z", category := "", brand := "", credit := 100000,
    bonus := 0, stock := 3, warranty := "" }

lemma requiredCategories_nodup (ip : Bool) : (requiredCategories ip).Nodup := by
  cases ip <;> decide

lemma requiredCategories_length_pos (ip : Bool) : 0 < (requiredCategories ip).length := by
  cases ip <;> decide

/-- C1: the pc-build dispatch surfaces a `completeBuild` only when the
re-validated detail set covers the required categories exactly once each,
every component being the product the catalog resolves for the SKU the
collaborator chose; a missing category always routes to one of the two
degraded missing-category outcomes, and any SKU that fails the re-fetch
forces the infeasible outcome — a partial build is never returned as a
build. -/
theorem C1_build_completeness (cat : Catalog)
    (gsel : Option (List (String × String))) (grank : GptRank)
    (pools : List (String × List Product)) (ip : Bool) (budget : Option ℚ)
    (hnodup : ((gsel.getD []).map Prod.fst).Nodup) :
    (∀ d, pcBuildDispatch cat gsel grank pools ip budget = .completeBuild d →
      (d.map Prod.fst).Perm (requiredCategories ip) ∧
      ∀ cp ∈ d, ∃ sku, (cp.1, sku) ∈ select_pc_components ip budget gsel ∧
        get_by_sku cat sku = some cp.2) ∧
    (missingCategories pools ip ≠ [] →
      (∃ m fb ps, pcBuildDispatch cat gsel grank pools ip budget =
        .missingFallback m fb ps) ∨
      (∃ m fb, pcBuildDispatch cat gsel grank pools ip budget =
        .missingNoProducts m fb)) ∧
    (missingCategories pools ip = [] →
      (∃ cs ∈ select_pc_components ip budget gsel, get_by_sku cat cs.2 = none) →
      pcBuildDispatch cat gsel grank pools ip budget = .infeasible) := by
  refine ⟨?_, ?_, ?_⟩
  · intro d hd
    unfold pcBuildDispatch at hd
    split at hd
    · split at hd <;> exact absurd hd (by simp)
    · split at hd
      · rename_i hlen
        split at hd
        case _ hc =>
          have hd2 : d = (select_pc_components ip budget gsel).filterMap
              (fun cs => (get_by_sku cat cs.2).map (fun p => (cs.1, p))) := by
            injection hd with h
            exact h.symm
          subst hd2
          have hall : ∀ cs ∈ select_pc_components ip budget gsel,
              ((get_by_sku cat cs.2).map (fun p => (cs.1, p))).isSome := by
            apply filterMap_all_isSome
            rw [hc, hlen]
          have hsome : ∀ cs ∈ select_pc_components ip budget gsel,
              (get_by_sku cat cs.2).isSome := by
            intro cs hcs
            have := hall cs hcs
            simpa [Option.isSome_map] using this
          constructor
          · rw [filterMap_pair_fst hsome]
            cases gsel with
            | none =>
              simp [select_pc_components] at hlen
              have := requiredCategories_length_pos ip
              omega
            | some m =>
              simp only [Option.getD_some] at hnodup
              by_cases hvalid : ((requiredCategories ip).all
                  (fun c => m.any (fun p => p.1 = c))) = true
              · simp only [select_pc_components, hvalid, if_true] at hlen ⊢
                have hsub : requiredCategories ip ⊆ m.map Prod.fst := by
                  intro c hcmem
                  obtain ⟨p, hpmem, hp⟩ := List.any_eq_true.mp
                    ((List.all_eq_true.mp hvalid) c hcmem)
                  exact List.mem_map.mpr ⟨p, hpmem, by simpa using hp⟩
                have hsp := List.subperm_of_subset
                  (requiredCategories_nodup ip) hsub
                have hperm := hsp.perm_of_length_le
                  (by rw [List.length_map, hlen])
                exact hperm.symm
              · simp only [select_pc_components, hvalid, if_false] at hlen
                simp at hlen
                have := requiredCategories_length_pos ip
                omega
          · intro cp hcp
            obtain ⟨a, ha, hfa⟩ := List.mem_filterMap.mp hcp
            obtain ⟨p, hp, hpa⟩ := Option.map_eq_some'.mp hfa
            refine ⟨a.2, ?_, ?_⟩
            · have : cp.1 = a.1 := by rw [← hpa]
              rw [this]
              exact ha
            · rw [hp]
              congr 1
              rw [← hpa]
        case _ hc => exact absurd hd (by simp)
      · rename_i hlen
        split at hd
        case _ hzero =>
          have := requiredCategories_length_pos ip
          simp at hzero
          omega
        case _ hzero => exact absurd hd (by simp)
  · intro hmiss
    unfold pcBuildDispatch
    split
    · rename_i fb rest heq
      by_cases hfb : search cat "" fb 50 none none = []
      · right
        exact ⟨fb :: rest, fb, by rw [if_pos hfb]⟩
      · left
        exact ⟨fb :: rest, fb,
          (select_best_products (search cat "" fb 50 none none) grank).take 5,
          by rw [if_neg hfb]⟩
    · rename_i heq
      exact absurd heq hmiss
  · intro hmiss hex
    unfold pcBuildDispatch
    split
    · rename_i fb rest heq
      rw [hmiss] at heq
      exact absurd heq (by simp)
    · split
      · rename_i hlen
        have hlt : ((select_pc_components ip budget gsel).filterMap
            (fun cs => (get_by_sku cat cs.2).map (fun p => (cs.1, p)))).length
            < (select_pc_components ip budget gsel).length := by
          apply filterMap_none_length_lt
          obtain ⟨cs, hcs, hnone⟩ := hex
          exact ⟨cs, hcs, by rw [hnone]; rfl⟩
        rw [if_neg (by omega)]
      · have := requiredCategories_length_pos ip
        rw [if_neg (by simp; omega)]

/-- C1 witness: a concrete complete build — the details cover the six base
categories exactly, each entry re-fetched from the catalog by SKU. -/
theorem C1_build_completeness_witness :
    (((some gselZ : Option (List (String × String))).getD []).map Prod.fst).Nodup ∧
    (((baseCategories.map fun c => (c, zProduct)).map Prod.fst).Perm
        (requiredCategories false) ∧
      ∀ cp ∈ baseCategories.map fun c => (c, zProduct), ∃ sku,
        (cp.1, sku) ∈ select_pc_components false (some 100) (some gselZ) ∧
        get_by_sku catZ sku = some cp.2) :=
  ⟨by decide,
   (C1_build_completeness catZ (some gselZ) .malformed poolsBase false
       (some 100) (by decide)).1 _ (by decide)⟩

/-! C2 — the budget ceiling is not enforced. -/

/-- C2 counterexample: a pc-build request with budget 100 ends in a
successful complete build whose total credit price is 600000 — far above
100 × 1.10.  Every candidate pool is non-empty, the collaborator map covers
all six base categories, and every SKU re-fetches successfully, so the
success path runs; no code compares the summed price with the budget. -/
theorem C2_cex_total_exceeds_budget :
    pcBuildDispatch catZ (some gselZ) GptRank.malformed poolsBase false
        (some 100) = .completeBuild (baseCategories.map fun c => (c, zProduct)) ∧
    ¬ (buildTotal (baseCategories.map fun c => (c, zProduct))
        ≤ 100 * (1 + 1 / 10)) := by
  constructor
  · decide
  · simp [buildTotal, baseCategories, zProduct]
    norm_num

/-- C2 (amended): the numeric budget reaches only the candidate-pool price
windows and the collaborator prompt; given the pools and the collaborator
SKU map, the orchestrator accepts or rejects the build and computes its
total identically for every budget value — it never compares the total with
the budget, so a successful build may cost more than budget × 1.10. -/
theorem C2_amended_no_budget_check (cat : Catalog)
    (gsel : Option (List (String × String))) (grank : GptRank)
    (pools : List (String × List Product)) (ip : Bool) (b1 b2 : Option ℚ) :
    pcBuildDispatch cat gsel grank pools ip b1 =
      pcBuildDispatch cat gsel grank pools ip b2 ∧
    (∀ d, pcBuildDispatch cat gsel grank pools ip b1 = .completeBuild d →
      buildTotal d = (d.map fun cp => cp.2.credit).sum) :=
  ⟨rfl, fun _ _ => rfl⟩

/-- C2 (amended) witness: the concrete over-budget build is accepted with
budget 100 and with budget 10^9 alike, and its total is the credit sum. -/
theorem C2_amended_no_budget_check_witness :
    pcBuildDispatch catZ (some gselZ) GptRank.malformed poolsBase false
        (some 100) =
      pcBuildDispatch catZ (some gselZ) GptRank.malformed poolsBase false
        (some 1000000000) ∧
    buildTotal (baseCategories.map fun c => (c, zProduct)) =
      ((baseCategories.map fun c => (c, zProduct)).map fun cp => cp.2.credit).sum :=
  ⟨(C2_amended_no_budget_check catZ (some gselZ) .malformed poolsBase false
      (some 100) (some 1000000000)).1,
   (C2_amended_no_budget_check catZ (some gselZ) .malformed poolsBase false
      (some 100) (some 1000000000)).2 _ (by decide)⟩

/-- C6 witness: a malformed collaborator reply on a one-product input falls
back to the first five products. -/
theorem C6_selector_total_witness :
    ([stockedProduct] ≠ ([] : List Product)) ∧
    select_best_products [stockedProduct] GptRank.malformed =
      [stockedProduct].take 5 :=
  ⟨by decide,
   (C6_selector_total [stockedProduct] .malformed).2.2.2 (Or.inr (Or.inl rfl))⟩

/-- C9 (amended) witness: the validated image of a well-formed record is
returned and carries a non-empty SKU and name. -/
theorem C9_amended_validation_witness :
    gpuProduct ∈ validateProducts [rawGpu] ∧
    gpuProduct.sku ≠ "" ∧ gpuProduct.name ≠ "" :=
  ⟨by decide, (C9_amended_validation [rawGpu]).1 gpuProduct (by decide)⟩
